import Mathlib

/-!
Verification of the BiliBiliRecNotifier webhook receiver.

The program (src/main.rs) is a small HTTP webhook receiver: it accepts
`POST /webhook` requests carrying a JSON `Event` payload, decodes the
payload, optionally filters by a room-id allow list parsed once at startup
from the `roomid_filter` command line option, and calls an OS notification
collaborator for stream-start events.

This file shallowly embeds the request-handling pipeline:
  * `Event` / `EventData` mirror the serde data model, with `Int` standing
    for Rust `i64` (the i64 range restriction appears as an explicit range
    check in the decoder, matching serde's behaviour).
  * `Json` is a model of serde_json values; `Event.toJson` / `Event.fromJson`
    embed the derived `Serialize` / `Deserialize` implementations with the
    wire's capitalized field renames.
  * `handle_request` embeds the `handle_request` function; the external
    notification collaborator is a parameter, and the list of collaborator
    calls made during a request is returned alongside the HTTP response.
  * `parseFilter` embeds the startup parsing of `roomid_filter`
    (`split(',')` then `filter_map(u32::from_str(..).ok())`).
-/

namespace RecNotifier

/-- Embeds the Rust struct `EventData` (src/main.rs). `room_id` and
`short_id` are `i64` in the source, modelled as `Int`. -/
structure EventData where
  room_id : Int
  short_id : Int
  name : String
  title : String
  area_name_parent : String
  area_name_child : String
  recording : Bool
  streaming : Bool
  danmaku_connected : Bool
deriving DecidableEq, Repr

/-- Embeds the Rust struct `Event` (src/main.rs). -/
structure Event where
  event_type : String
  event_timestamp : String
  event_id : String
  event_data : EventData
deriving DecidableEq, Repr

/-- A model of serde_json JSON values (numbers restricted to integers,
which is all this program uses). -/
inductive Json where
  | null
  | bool (b : Bool)
  | num (n : Int)
  | str (s : String)
  | arr (elems : List Json)
  | obj (fields : List (String × Json))

/-- Field lookup in a JSON object (first occurrence), `none` on non-objects. -/
def Json.getField : Json → String → Option Json
  | .obj fs, k => fs.lookup k
  | _, _ => none

/-- Decode a required string field, as serde does for a `String` struct field. -/
def reqStr (j : Json) (k : String) : Except String String :=
  match j.getField k with
  | some (.str s) => .ok s
  | some _ => .error ("invalid type for field " ++ k)
  | none => .error ("missing field " ++ k)

/-- Decode a required `i64` field: the JSON number must fit in a signed
64-bit integer, as serde_json enforces when the target field is `i64`. -/
def reqI64 (j : Json) (k : String) : Except String Int :=
  match j.getField k with
  | some (.num n) =>
      if -9223372036854775808 ≤ n ∧ n ≤ 9223372036854775807 then .ok n
      else .error ("number out of range for field " ++ k)
  | some _ => .error ("invalid type for field " ++ k)
  | none => .error ("missing field " ++ k)

/-- Decode a required boolean field. -/
def reqBool (j : Json) (k : String) : Except String Bool :=
  match j.getField k with
  | some (.bool b) => .ok b
  | some _ => .error ("invalid type for field " ++ k)
  | none => .error ("missing field " ++ k)

/-- Embeds the derived `Deserialize` for `EventData`, with the
`#[serde(rename = "...")]` capitalized wire names; unknown fields are
ignored (serde default). -/
def EventData.fromJson (j : Json) : Except String EventData := do
  let room_id ← reqI64 j "RoomId"
  let short_id ← reqI64 j "ShortId"
  let name ← reqStr j "Name"
  let title ← reqStr j "Title"
  let area_name_parent ← reqStr j "AreaNameParent"
  let area_name_child ← reqStr j "AreaNameChild"
  let recording ← reqBool j "Recording"
  let streaming ← reqBool j "Streaming"
  let danmaku_connected ← reqBool j "DanmakuConnected"
  pure ⟨room_id, short_id, name, title, area_name_parent, area_name_child,
        recording, streaming, danmaku_connected⟩

/-- Embeds the derived `Serialize` for `EventData`. -/
def EventData.toJson (d : EventData) : Json :=
  .obj [("RoomId", .num d.room_id),
        ("ShortId", .num d.short_id),
        ("Name", .str d.name),
        ("Title", .str d.title),
        ("AreaNameParent", .str d.area_name_parent),
        ("AreaNameChild", .str d.area_name_child),
        ("Recording", .bool d.recording),
        ("Streaming", .bool d.streaming),
        ("DanmakuConnected", .bool d.danmaku_connected)]

/-- Embeds the derived `Deserialize` for `Event`. -/
def Event.fromJson (j : Json) : Except String Event := do
  let event_type ← reqStr j "EventType"
  let event_timestamp ← reqStr j "EventTimestamp"
  let event_id ← reqStr j "EventId"
  let event_data ←
    match j.getField "EventData" with
    | some jd => EventData.fromJson jd
    | none => .error "missing field EventData"
  pure ⟨event_type, event_timestamp, event_id, event_data⟩

/-- Embeds the derived `Serialize` for `Event`. -/
def Event.toJson (e : Event) : Json :=
  .obj [("EventType", .str e.event_type),
        ("EventTimestamp", .str e.event_timestamp),
        ("EventId", .str e.event_id),
        ("EventData", e.event_data.toJson)]

/-- An HTTP response: status code and body (the bodies this program builds
are all textual). -/
structure HttpResponse where
  status : Nat
  body : String
deriving DecidableEq, Repr

/-- Embeds `not_found`: status 404, empty body. -/
def not_found : HttpResponse := ⟨404, ""⟩

/-- Embeds `server_err`: status 500, body is the diagnostic message. -/
def server_err (msg : String) : HttpResponse := ⟨500, msg⟩

/-- Embeds `Response::new(Body::empty())`: status 200, empty body. -/
def ok_empty : HttpResponse := ⟨200, ""⟩

/-- Models `format!("\x7berr:#?\x7d")` applied to a library error value: Rust's
debug formatting always prints the error type's constructor around the
message, so the result is non-empty even for an empty message. -/
def fmtDebug (msg : String) : String := "Error(\"" ++ msg ++ "\")"

/-- One invocation of the external notification collaborator
(`notify_rust::Notification ... .show()`): summary, body and sound name. -/
structure NotifyCall where
  summary : String
  body : String
  sound : String
deriving DecidableEq, Repr

/-- Embeds the body string built in `notify`:
`format!("Room \x7broom\x7d is streaming.\n\n\x7btitle\x7d")`. -/
def notifyBody (e : Event) : String :=
  "Room " ++ toString e.event_data.room_id ++ " is streaming.\n\n" ++ e.event_data.title

/-- The outcome of obtaining the request body, as seen by `handle_request`:
reading the body can fail (`hyper::body::to_bytes` error), the bytes can
fail to parse as JSON at all (serde_json syntax error, carrying the
diagnostic), or they parse to a JSON value (schema checking happens later
in `Event.fromJson`). -/
inductive BodyOutcome where
  | readErr (msg : String)
  | notJson (msg : String)
  | json (j : Json)

/-- An inbound HTTP request as `handle_request` consumes it. -/
structure HttpRequest where
  method : String
  path : String
  body : BodyOutcome

/-- Embeds the Rust cast `room_id as u32` on an `i64` value: two's
complement truncation to the low 32 bits, i.e. reduction modulo 2^32
(4294967296 = 2^32). -/
def i64_as_u32 (x : Int) : Nat := (x % 4294967296).toNat

/-- Embeds the notification step inside `handle_request`: call `notify`
(recorded as a `NotifyCall`), map a collaborator error to a 500 response
with the debug-formatted diagnostic, and success to 200 with empty body. -/
def dispatchNotify (sound : String) (collab : NotifyCall → Except String Unit)
    (event : Event) : HttpResponse × List NotifyCall :=
  let call : NotifyCall := ⟨"Live started!", notifyBody event, sound⟩
  match collab call with
  | .error msg => (server_err (fmtDebug msg), [call])
  | .ok _ => (ok_empty, [call])

/-- Embeds `handle_request` (src/main.rs): reject non-POST methods and
non-`/webhook` paths with 404; map body-read and decode failures to 500
with the debug-formatted diagnostic; for decoded events, notify only when
`event_type == "StreamStarted"` and the room filter (if configured)
contains `room_id as u32`. The configured filter, the platform sound name
and the external collaborator are parameters; the calls made to the
collaborator are returned alongside the response. -/
def handle_request (filter : Option (List Nat)) (sound : String)
    (collab : NotifyCall → Except String Unit) (req : HttpRequest) :
    HttpResponse × List NotifyCall :=
  if req.method ≠ "POST" then (not_found, [])
  else if req.path ≠ "/webhook" then (not_found, [])
  else
    match req.body with
    | .readErr msg => (server_err (fmtDebug msg), [])
    | .notJson msg => (server_err (fmtDebug msg), [])
    | .json j =>
      match Event.fromJson j with
      | .error msg => (server_err (fmtDebug msg), [])
      | .ok event =>
        if event.event_type = "StreamStarted" then
          match filter with
          | some f =>
            if i64_as_u32 event.event_data.room_id ∈ f then
              dispatchNotify sound collab event
            else
              (ok_empty, [])
          | none => dispatchNotify sound collab event
        else (ok_empty, [])

/-- Embeds Rust's `str::split(',')` on the character level: splitting a
character list at every separator, keeping empty segments (so the empty
string yields one empty segment, as in Rust). -/
def splitChar (c : Char) : List Char → List (List Char)
  | [] => [[]]
  | x :: xs =>
    if x = c then [] :: splitChar c xs
    else
      match splitChar c xs with
      | [] => [[x]]
      | y :: ys => (x :: y) :: ys

/-- Rust `s.split(',')` as a list of strings. -/
def rustSplit (s : String) (c : Char) : List String :=
  (splitChar c s.toList).map String.mk

/-- Embeds `u32::from_str`: an optional leading `+`, then one or more ASCII
digits, value below 2^32 (4294967296); anything else fails. -/
def parseU32 (s : String) : Option Nat :=
  let cs := s.toList
  let cs := match cs with
    | '+' :: rest => rest
    | other => other
  if cs = [] then none
  else if cs.all Char.isDigit then
    let n := cs.foldl (fun acc c => acc * 10 + (c.toNat - 48)) 0
    if n < 4294967296 then some n else none
  else none

/-- Embeds the startup parsing of `roomid_filter` in `main`:
`it.split(',').filter_map(|it| u32::from_str(it).ok()).collect()`. -/
def parseFilter (s : String) : List Nat :=
  (rustSplit s ',').filterMap parseU32

/-- Embeds the installation of `ROOMID_FILTER` in `main`: the filter is
installed exactly when the `roomid_filter` option is present (even if no
entry parsed), and holds the parsed list. -/
def installedFilter (cfg : Option String) : Option (List Nat) :=
  cfg.map parseFilter

/-- The string `needle` occurs as a contiguous substring of `hay`. -/
def strContains (hay needle : String) : Prop :=
  ∃ p q, hay = p ++ needle ++ q

/-- A decode failure as `handle_request` sees it: either the body bytes are
not syntactically valid JSON, or they are a JSON value that does not match
the `Event` schema (missing or wrongly-typed fields included). -/
def decodeFails (b : BodyOutcome) : Prop :=
  (∃ msg, b = .notJson msg) ∨ (∃ j msg, b = .json j ∧ Event.fromJson j = .error msg)

/-- Concrete stream-start event (the spec scenario, section 8.7). -/
def evW : Event :=
  ⟨"StreamStarted", "t", "1", ⟨123, 1, "n", "Hello", "A", "B", false, true, true⟩⟩

/-- Concrete non-actionable event: same payload, different `event_type`. -/
def evSess : Event :=
  ⟨"SessionStarted", "t", "1", ⟨123, 1, "n", "Hello", "A", "B", false, true, true⟩⟩

/-- Concrete stream-start event with a negative `room_id` whose low 32 bits
are 123 (since -4294967173 = -(2^32) + 123). -/
def evNeg : Event :=
  ⟨"StreamStarted", "t", "1", ⟨-4294967173, 1, "n", "Hello", "A", "B", false, true, true⟩⟩


/-- Helper: the debug-formatted diagnostic of an error is never the empty
string (the wrapper printed by debug formatting is itself non-empty). -/
theorem fmtDebug_ne_empty (msg : String) : fmtDebug msg ≠ "" := by
  intro h
  have hl := congrArg String.length h
  simp [fmtDebug, String.length_append] at hl
  exact absurd hl.1.1 (by decide)

/-- C1: for every inbound request whose method is not POST or whose path is
not "/webhook", `handle_request` returns a 404 response with empty body and
makes no collaborator call, whatever the body holds (the result is the same
for every body, so the body is never consulted). -/
theorem c1_router_rejects (filter : Option (List Nat)) (sound : String)
    (collab : NotifyCall → Except String Unit) (req : HttpRequest)
    (h : req.method ≠ "POST" ∨ req.path ≠ "/webhook") :
    handle_request filter sound collab req = (not_found, []) := by
  rcases h with h | h
  · simp [handle_request, h]
  · by_cases hm : req.method = "POST"
    · simp [handle_request, hm, h]
    · simp [handle_request, hm]

/-- Witness for C1 at a concrete GET request. -/
theorem c1_witness :
    (("GET" : String) ≠ "POST" ∨ ("/webhook" : String) ≠ "/webhook") ∧
      handle_request none "Submarine" (fun _ => .ok ())
        ⟨"GET", "/webhook", .json .null⟩ = (not_found, []) :=
  ⟨Or.inl (by decide),
   c1_router_rejects none "Submarine" (fun _ => .ok ())
     ⟨"GET", "/webhook", .json .null⟩ (Or.inl (by decide))⟩

/-- C2: for every POST /webhook request whose body is not valid JSON
matching the `Event` schema (syntactically invalid JSON, or a JSON value
with missing or wrongly-typed fields), `handle_request` returns status 500
with a non-empty body and makes no collaborator call. -/
theorem c2_decode_failure (filter : Option (List Nat)) (sound : String)
    (collab : NotifyCall → Except String Unit) (b : BodyOutcome)
    (h : decodeFails b) :
    (handle_request filter sound collab ⟨"POST", "/webhook", b⟩).1.status = 500 ∧
      (handle_request filter sound collab ⟨"POST", "/webhook", b⟩).1.body ≠ "" ∧
      (handle_request filter sound collab ⟨"POST", "/webhook", b⟩).2 = [] := by
  rcases h with ⟨msg, rfl⟩ | ⟨j, msg, rfl, hj⟩
  · exact ⟨rfl, fmtDebug_ne_empty msg, rfl⟩
  · refine ⟨?_, ?_, ?_⟩ <;> simp [handle_request, hj, server_err, fmtDebug_ne_empty]

/-- Witness for C2 at a concrete syntactically-invalid body. -/
theorem c2_witness :
    decodeFails (.notJson "expected value") ∧
      ((handle_request none "Submarine" (fun _ => .ok ())
          ⟨"POST", "/webhook", .notJson "expected value"⟩).1.status = 500 ∧
        (handle_request none "Submarine" (fun _ => .ok ())
          ⟨"POST", "/webhook", .notJson "expected value"⟩).1.body ≠ "" ∧
        (handle_request none "Submarine" (fun _ => .ok ())
          ⟨"POST", "/webhook", .notJson "expected value"⟩).2 = []) :=
  ⟨Or.inl ⟨"expected value", rfl⟩,
   c2_decode_failure none "Submarine" (fun _ => .ok ()) (.notJson "expected value")
     (Or.inl ⟨"expected value", rfl⟩)⟩

/-- C3: for every decoded event whose `event_type` is not "StreamStarted",
`handle_request` returns 200 with empty body and makes no collaborator
call, for any filter configuration. -/
theorem c3_not_stream_start (filter : Option (List Nat)) (sound : String)
    (collab : NotifyCall → Except String Unit) (j : Json) (e : Event)
    (hdec : Event.fromJson j = .ok e) (hty : e.event_type ≠ "StreamStarted") :
    handle_request filter sound collab ⟨"POST", "/webhook", .json j⟩ = (ok_empty, []) := by
  simp [handle_request, hdec, hty]

/-- Witness for C3 at a concrete "SessionStarted" event. -/
theorem c3_witness :
    Event.fromJson (Event.toJson evSess) = .ok evSess ∧
      evSess.event_type ≠ "StreamStarted" ∧
      handle_request none "Submarine" (fun _ => .ok ())
        ⟨"POST", "/webhook", .json (Event.toJson evSess)⟩ = (ok_empty, []) :=
  ⟨rfl, by decide,
   c3_not_stream_start none "Submarine" (fun _ => .ok ()) (Event.toJson evSess) evSess
     rfl (by decide)⟩

/-- C4: for every decoded stream-start event with no filter configured
(and a collaborator that accepts the call), `handle_request` returns 200
with empty body, the collaborator is called exactly once, and the call's
body contains the decimal rendering of `room_id` and the event's title. -/
theorem c4_no_filter_notifies (sound : String)
    (collab : NotifyCall → Except String Unit) (j : Json) (e : Event)
    (hdec : Event.fromJson j = .ok e) (hty : e.event_type = "StreamStarted")
    (hok : collab ⟨"Live started!", notifyBody e, sound⟩ = .ok ()) :
    handle_request none sound collab ⟨"POST", "/webhook", .json j⟩ =
        (ok_empty, [⟨"Live started!", notifyBody e, sound⟩]) ∧
      strContains (notifyBody e) (toString e.event_data.room_id) ∧
      strContains (notifyBody e) e.event_data.title := by
  refine ⟨by simp [handle_request, hdec, hty, dispatchNotify, hok], ?_, ?_⟩
  · refine ⟨"Room ", " is streaming.\n\n" ++ e.event_data.title, ?_⟩
    simp [notifyBody, String.append_assoc]
  · refine ⟨"Room " ++ toString e.event_data.room_id ++ " is streaming.\n\n", "", ?_⟩
    simp [notifyBody, String.append_assoc]

/-- Witness for C4 at the spec's concrete scenario event. -/
theorem c4_witness :
    Event.fromJson (Event.toJson evW) = .ok evW ∧
      evW.event_type = "StreamStarted" ∧
      (fun _ => (.ok () : Except String Unit))
          (⟨"Live started!", notifyBody evW, "Submarine"⟩ : NotifyCall) = .ok () ∧
      (handle_request none "Submarine" (fun _ => .ok ())
          ⟨"POST", "/webhook", .json (Event.toJson evW)⟩ =
          (ok_empty, [⟨"Live started!", notifyBody evW, "Submarine"⟩]) ∧
        strContains (notifyBody evW) (toString evW.event_data.room_id) ∧
        strContains (notifyBody evW) evW.event_data.title) :=
  ⟨rfl, rfl, rfl,
   c4_no_filter_notifies "Submarine" (fun _ => .ok ()) (Event.toJson evW) evW rfl rfl rfl⟩

/-- C5: for every decoded stream-start event, when a filter is configured
that does not contain `room_id as u32`, `handle_request` returns 200 with
empty body and makes no collaborator call. -/
theorem c5_filtered_out_suppresses (f : List Nat) (sound : String)
    (collab : NotifyCall → Except String Unit) (j : Json) (e : Event)
    (hdec : Event.fromJson j = .ok e) (hty : e.event_type = "StreamStarted")
    (hmem : i64_as_u32 e.event_data.room_id ∉ f) :
    handle_request (some f) sound collab ⟨"POST", "/webhook", .json j⟩ = (ok_empty, []) := by
  simp [handle_request, hdec, hty, hmem]

/-- Witness for C5: room 123 against the filter [456]. -/
theorem c5_witness :
    Event.fromJson (Event.toJson evW) = .ok evW ∧
      evW.event_type = "StreamStarted" ∧
      i64_as_u32 evW.event_data.room_id ∉ [456] ∧
      handle_request (some [456]) "Submarine" (fun _ => .ok ())
        ⟨"POST", "/webhook", .json (Event.toJson evW)⟩ = (ok_empty, []) :=
  ⟨rfl, rfl, by decide,
   c5_filtered_out_suppresses [456] "Submarine" (fun _ => .ok ()) (Event.toJson evW) evW
     rfl rfl (by decide)⟩

/-- C6: serializing an `Event` to JSON with the wire's capitalized field
names and deserializing it back yields the same `Event`, field for field
(given that the integer fields are in i64 range, as they always are for a
value decoded from or encoded to Rust's `i64`). -/
theorem c6_roundtrip (e : Event)
    (h1 : -9223372036854775808 ≤ e.event_data.room_id)
    (h2 : e.event_data.room_id ≤ 9223372036854775807)
    (h3 : -9223372036854775808 ≤ e.event_data.short_id)
    (h4 : e.event_data.short_id ≤ 9223372036854775807) :
    Event.fromJson (Event.toJson e) = .ok e := by
  simp [Event.fromJson, Event.toJson, EventData.fromJson, EventData.toJson,
        Json.getField, reqStr, reqI64, reqBool, List.lookup, h1, h2, h3, h4]
  rfl

/-- Witness for C6 at the spec's concrete scenario event. -/
theorem c6_witness :
    (-9223372036854775808 ≤ evW.event_data.room_id ∧
        evW.event_data.room_id ≤ 9223372036854775807 ∧
        -9223372036854775808 ≤ evW.event_data.short_id ∧
        evW.event_data.short_id ≤ 9223372036854775807) ∧
      Event.fromJson (Event.toJson evW) = .ok evW :=
  ⟨by decide,
   c6_roundtrip evW (by decide) (by decide) (by decide) (by decide)⟩

/-- C7: `parseFilter` keeps exactly the comma-separated entries that parse
as u32 (entries that fail to parse are dropped, with no error: membership
in the result is equivalent to being the successful parse of some entry),
and with the parsed filter installed (non-empty after parsing), a
stream-start event is dispatched if and only if its `room_id` is in the
parsed list (for in-range `room_id` and a collaborator that accepts). -/
theorem c7_filter_parse_restricts (s : String) (sound : String)
    (collab : NotifyCall → Except String Unit) (j : Json) (e : Event)
    (hdec : Event.fromJson j = .ok e) (hty : e.event_type = "StreamStarted")
    (hok : collab ⟨"Live started!", notifyBody e, sound⟩ = .ok ())
    (_hne : parseFilter s ≠ [])
    (h0 : 0 ≤ e.event_data.room_id) (hlt : e.event_data.room_id < 4294967296) :
    (∀ x : Nat, x ∈ parseFilter s ↔ ∃ t ∈ rustSplit s ',', parseU32 t = some x) ∧
      ((handle_request (some (parseFilter s)) sound collab
          ⟨"POST", "/webhook", .json j⟩).2 ≠ [] ↔
        e.event_data.room_id.toNat ∈ parseFilter s) := by
  have hcast : i64_as_u32 e.event_data.room_id = e.event_data.room_id.toNat := by
    unfold i64_as_u32
    rw [Int.emod_eq_of_lt h0 hlt]
  constructor
  · intro x
    simp [parseFilter, List.mem_filterMap]
  · by_cases hm : e.event_data.room_id.toNat ∈ parseFilter s
    · simp [handle_request, hdec, hty, hcast, hm, dispatchNotify, hok]
    · simp [handle_request, hdec, hty, hcast, hm]

/-- Witness for C7: the spec scenario, filter string "123,456". -/
theorem c7_witness :
    (Event.fromJson (Event.toJson evW) = .ok evW ∧
        evW.event_type = "StreamStarted" ∧
        parseFilter "123,456" ≠ [] ∧
        0 ≤ evW.event_data.room_id ∧ evW.event_data.room_id < 4294967296) ∧
      ((∀ x : Nat, x ∈ parseFilter "123,456" ↔
          ∃ t ∈ rustSplit "123,456" ',', parseU32 t = some x) ∧
        ((handle_request (some (parseFilter "123,456")) "Submarine" (fun _ => .ok ())
            ⟨"POST", "/webhook", .json (Event.toJson evW)⟩).2 ≠ [] ↔
          evW.event_data.room_id.toNat ∈ parseFilter "123,456")) :=
  ⟨⟨rfl, rfl, by decide, by decide, by decide⟩,
   c7_filter_parse_restricts "123,456" "Submarine" (fun _ => .ok ())
     (Event.toJson evW) evW rfl rfl rfl (by decide) (by decide) (by decide)⟩

/-- C8: the filter membership test narrows the signed 64-bit `room_id` to
u32 with no bounds check: for every decoded stream-start event and every
configured filter, the collaborator is called if and only if `room_id`
reduced modulo 2^32 is in the filter — so a negative or overflowing
`room_id` whose low 32 bits coincide with a filter entry passes. -/
theorem c8_membership_uses_low_32_bits (f : List Nat) (sound : String)
    (collab : NotifyCall → Except String Unit) (j : Json) (e : Event)
    (hdec : Event.fromJson j = .ok e) (hty : e.event_type = "StreamStarted")
    (hok : collab ⟨"Live started!", notifyBody e, sound⟩ = .ok ()) :
    (handle_request (some f) sound collab ⟨"POST", "/webhook", .json j⟩).2 ≠ [] ↔
      (e.event_data.room_id % (2 ^ 32 : Int)).toNat ∈ f := by
  have h232 : (2 ^ 32 : Int) = 4294967296 := by norm_num
  rw [h232]
  by_cases hm : i64_as_u32 e.event_data.room_id ∈ f
  · have hm2 := hm
    unfold i64_as_u32 at hm2
    simp [handle_request, hdec, hty, hm, dispatchNotify, hok, hm2]
  · have hm2 := hm
    unfold i64_as_u32 at hm2
    simp [handle_request, hdec, hty, hm, hm2]

/-- Witness for C8: a negative room id, -4294967173, whose low 32 bits are
123, against the filter [123]. -/
theorem c8_witness :
    (Event.fromJson (Event.toJson evNeg) = .ok evNeg ∧
        evNeg.event_type = "StreamStarted" ∧
        evNeg.event_data.room_id < 0) ∧
      ((handle_request (some [123]) "Submarine" (fun _ => .ok ())
          ⟨"POST", "/webhook", .json (Event.toJson evNeg)⟩).2 ≠ [] ↔
        (evNeg.event_data.room_id % (2 ^ 32 : Int)).toNat ∈ [123]) :=
  ⟨⟨rfl, rfl, by decide⟩,
   c8_membership_uses_low_32_bits [123] "Submarine" (fun _ => .ok ())
     (Event.toJson evNeg) evNeg rfl rfl rfl⟩

/-- C9: `handle_request` is total and infallible: for every inbound request
(any method, path, body outcome, filter and collaborator) it produces a
response whose status is 404, 500 or 200. -/
theorem c9_total_response (filter : Option (List Nat)) (sound : String)
    (collab : NotifyCall → Except String Unit) (req : HttpRequest) :
    (handle_request filter sound collab req).1.status = 404 ∨
      (handle_request filter sound collab req).1.status = 500 ∨
      (handle_request filter sound collab req).1.status = 200 := by
  have hd : ∀ ev : Event,
      (dispatchNotify sound collab ev).1.status = 500 ∨
        (dispatchNotify sound collab ev).1.status = 200 := by
    intro ev
    unfold dispatchNotify
    cases h : collab ⟨"Live started!", notifyBody ev, sound⟩ <;>
      simp [h, server_err, ok_empty]
  unfold handle_request
  repeat' split
  all_goals first
    | exact Or.inl rfl
    | exact Or.inr (Or.inl rfl)
    | exact Or.inr (Or.inr rfl)
    | exact (hd _).elim (fun h => Or.inr (Or.inl h)) (fun h => Or.inr (Or.inr h))

/-- C10 counterexample: with the filter option "abc" (every entry fails to
parse, so the installed filter is the empty set), a POST /webhook request
whose body is not valid JSON receives status 500, not 200 — so not every
POST /webhook request receives 200 OK under an all-invalid filter. -/
theorem c10_counterexample :
    (∀ t ∈ rustSplit "abc" ',', parseU32 t = none) ∧
      installedFilter (some "abc") = some [] ∧
      (handle_request (installedFilter (some "abc")) "Submarine" (fun _ => .ok ())
        ⟨"POST", "/webhook", .notJson "expected value"⟩).1.status ≠ 200 :=
  ⟨by decide, rfl, by decide⟩

/-- C10 (amended): if the roomid_filter option is provided and every
comma-separated entry fails to parse, the installed filter is the empty
set (not the absence of a filter), and then every POST /webhook request
whose body decodes as an `Event` — stream-start or not, any room — gets
200 OK with no collaborator call. -/
theorem c10_empty_filter_suppresses_all (s : String)
    (hall : ∀ t ∈ rustSplit s ',', parseU32 t = none)
    (sound : String) (collab : NotifyCall → Except String Unit) (j : Json) (e : Event)
    (hdec : Event.fromJson j = .ok e) :
    installedFilter (some s) = some [] ∧
      handle_request (installedFilter (some s)) sound collab
        ⟨"POST", "/webhook", .json j⟩ = (ok_empty, []) := by
  have hpf : parseFilter s = [] := by
    unfold parseFilter
    rw [List.filterMap_eq_nil_iff]
    exact hall
  refine ⟨by simp [installedFilter, hpf], ?_⟩
  by_cases hty : e.event_type = "StreamStarted"
  · simp [installedFilter, hpf, handle_request, hdec, hty]
  · simp [installedFilter, hpf, handle_request, hdec, hty]

/-- Witness for the amended C10: filter string "abc,xyz" (nothing parses)
and the concrete stream-start event. -/
theorem c10_witness :
    (∀ t ∈ rustSplit "abc,xyz" ',', parseU32 t = none) ∧
      Event.fromJson (Event.toJson evW) = .ok evW ∧
      (installedFilter (some "abc,xyz") = some [] ∧
        handle_request (installedFilter (some "abc,xyz")) "Submarine" (fun _ => .ok ())
          ⟨"POST", "/webhook", .json (Event.toJson evW)⟩ = (ok_empty, [])) :=
  ⟨by decide, rfl,
   c10_empty_filter_suppresses_all "abc,xyz" (by decide) "Submarine" (fun _ => .ok ())
     (Event.toJson evW) evW rfl⟩


end RecNotifier
